import Mathlib

/-!
Verification of the product/supplier catalog service (FastAPI + SQLAlchemy
repository pattern) against its natural-language specification.

The Python source is shallowly embedded: SQLAlchemy tables become Lean lists
of records, `async` repository/service methods become pure state-passing
functions `DB → args → DB × Except ApiError α` (every repository mutation in
the source issues its own `commit`, so the post-state must survive even when
an exception propagates — hence the state is returned alongside the
`Except`), `datetime.utcnow()` becomes a monotone `clock : Nat` counter, and
Python `float` prices become `ℚ` (the code only compares prices for equality
and order, never does float arithmetic whose rounding could be observed).
Rows are keyed by their primary-key `id`; primary keys are unique in the
store, so "delete the fetched row" is modelled as filtering out that id.
-/

namespace Catalog

/-- A scalar SQL value as it appears in a column or a filter. `nullV` is SQL
NULL: every comparison against it is unsatisfied (SQL three-valued logic
collapsed to `false` inside a `WHERE`). -/
inductive Value where
  | nullV : Value
  | intV : Int → Value
  | ratV : ℚ → Value
  | strV : String → Value
deriving DecidableEq, Repr

/-- SQL equality between scalar values; numeric values compare across
integer/decimal representations, NULL equals nothing. -/
def Value.eqb : Value → Value → Bool
  | .intV a, .intV b => a == b
  | .intV a, .ratV b => (a : ℚ) == b
  | .ratV a, .intV b => a == (b : ℚ)
  | .ratV a, .ratV b => a == b
  | .strV a, .strV b => a == b
  | _, _ => false

/-- SQL `<=` between scalar values; comparisons involving NULL are
unsatisfied, strings use lexicographic order (the sort key order of the
backing store). -/
def Value.le : Value → Value → Bool
  | .intV a, .intV b => a ≤ b
  | .intV a, .ratV b => (a : ℚ) ≤ b
  | .ratV a, .intV b => a ≤ (b : ℚ)
  | .ratV a, .ratV b => a ≤ b
  | .strV a, .strV b => decide (a < b) || a == b
  | _, _ => false

/-- Python truthiness of a scalar (`if value:`). -/
def Value.truthy : Value → Bool
  | .nullV => false
  | .intV i => i != 0
  | .ratV q => q != 0
  | .strV s => s != ""

/-- One value of the loosely-typed filter map accepted by the repository
layer: a scalar for exact match, a `{min, max}` dict for an inclusive range
(either bound `None`-able), a list for `IN`, or Python `None` (skipped). -/
inductive FilterVal where
  | scalar : Value → FilterVal
  | range : Option Value → Option Value → FilterVal
  | oneOf : List Value → FilterVal
  | nullF : FilterVal
deriving DecidableEq, Repr

/-- Python truthiness of a filter value (`None` and empty containers are
falsy; a `{min,max}` dict built by the endpoints always has its two keys and
is therefore truthy). -/
def FilterVal.truthy : FilterVal → Bool
  | .nullF => false
  | .scalar v => v.truthy
  | .range _ _ => true
  | .oneOf xs => !xs.isEmpty

/-- A filter value the database driver (asyncpg) can bind as a plain query
parameter: scalars bind, `None` is skipped before binding, but a dict or a
list passed where a scalar-typed parameter is expected fails to encode and
raises at execution time. -/
def FilterVal.bindable : FilterVal → Bool
  | .scalar _ => true
  | .nullF => true
  | _ => false

/-- The filter map `**filters`: field name to filter value. -/
abbrev Filters := List (String × FilterVal)

/-- `products` table row (`app/models/models.py`, class `Product`). -/
structure Product where
  id : Nat
  name : String
  price : ℚ
  description : Option String
  stock_quantity : Int
  category : Option String
  discount : ℚ
  created_at : Nat
  updated_at : Nat
deriving DecidableEq, Repr

/-- `suppliers` table row (`app/models/models.py`, class `Supplier`). -/
structure Supplier where
  id : Nat
  name : String
  contact_info : String
  credit_rating : Int
  created_at : Nat
  updated_at : Nat
deriving DecidableEq, Repr

/-- `price_history` table row. -/
structure PriceHistoryRow where
  id : Nat
  product_id : Nat
  old_price : ℚ
  new_price : ℚ
  timestamp : Nat
deriving DecidableEq, Repr

/-- `stock_history` table row. -/
structure StockHistoryRow where
  id : Nat
  product_id : Nat
  old_quantity : Int
  new_quantity : Int
  change_reason : Option String
  timestamp : Nat
deriving DecidableEq, Repr

/-- Column names of the `Product` model (the names `hasattr(Product, k)`
accepts for filtering/sorting; the relationship attributes are outside the
modelled filter/sort surface, which only ever receives column names or
unknown strings from the API layer). -/
def productColumns : List String :=
  ["id", "name", "price", "description", "stock_quantity", "category",
   "discount", "created_at", "updated_at"]

/-- `hasattr(Product, k)` for the modelled columns. -/
def Product.hasField (k : String) : Bool := productColumns.contains k

/-- `getattr(Product, k)` as a scalar value of the given row; nullable
columns with no value give SQL NULL. -/
def Product.getField (p : Product) : String → Value
  | "id" => .intV p.id
  | "name" => .strV p.name
  | "price" => .ratV p.price
  | "description" => match p.description with
    | some d => .strV d
    | none => .nullV
  | "stock_quantity" => .intV p.stock_quantity
  | "category" => match p.category with
    | some c => .strV c
    | none => .nullV
  | "discount" => .ratV p.discount
  | "created_at" => .intV p.created_at
  | "updated_at" => .intV p.updated_at
  | _ => .nullV

/-- Errors that can cross a service/repository boundary: the repository's
own `NotFoundException` (a plain `Exception`, not an HTTP error) and
FastAPI's `HTTPException` with a status code. -/
inductive ApiError where
  | notFoundExc : String → ApiError
  | httpExc : Nat → String → ApiError
deriving DecidableEq, Repr

namespace BaseRepository

/-- One filter condition of `BaseRepository.get_multi`
(`app/repositories/base.py:52-71`), evaluated at a row: unknown attribute
names are skipped, a dict contributes `min`/`max` bounds, a list is an `IN`,
a non-`None` scalar is an exact match, `None` is skipped. The generic
repository is instantiated at the `Product` entity. -/
def condHolds (p : Catalog.Product) (k : String) (v : Catalog.FilterVal) : Bool :=
  if Catalog.Product.hasField k then
    match v with
    | .scalar x => Catalog.Value.eqb (p.getField k) x
    | .range mn mx =>
        (match mn with
         | some x => Catalog.Value.le x (p.getField k)
         | none => true) &&
        (match mx with
         | some x => Catalog.Value.le (p.getField k) x
         | none => true)
    | .oneOf xs => xs.any (fun x => Catalog.Value.eqb (p.getField k) x)
    | .nullF => true
  else true

/-- The `WHERE` clause of `get_multi`: conjunction of all filter
conditions. -/
def rowMatches (fs : Catalog.Filters) (p : Catalog.Product) : Bool :=
  fs.all (fun kv => condHolds p kv.1 kv.2)

/-- Ascending comparison used by `ORDER BY` on column `f`. -/
def fieldLe (f : String) (a b : Catalog.Product) : Prop :=
  Catalog.Value.le (a.getField f) (b.getField f) = true

instance (f : String) : DecidableRel (fieldLe f) := by
  intro a b
  unfold fieldLe
  infer_instance

/-- `ORDER BY f ASC` / `ORDER BY f DESC` over the result rows (a stable
sort, matching the backing store's behaviour on equal keys). -/
def sortRows (f : String) (descFlag : Bool) (rows : List Catalog.Product) :
    List Catalog.Product :=
  if descFlag then List.insertionSort (fun a b => fieldLe f b a) rows
  else List.insertionSort (fieldLe f) rows

/-- `BaseRepository.get_multi` (`app/repositories/base.py:37-84`): filter,
then sort only when `sort_by` is truthy and an attribute of the model (no
ordering is applied otherwise), then `OFFSET skip LIMIT limit`. The row
list `rows` is the table in storage order. -/
def get_multi (rows : List Catalog.Product) (skip limit : Nat)
    (sortBy : Option String) (sortOrder : String) (fs : Catalog.Filters) :
    List Catalog.Product :=
  let filtered := rows.filter (rowMatches fs)
  let sorted :=
    match sortBy with
    | some f =>
        if f ≠ "" && Catalog.Product.hasField f then
          sortRows f (sortOrder.toLower == "desc") filtered
        else filtered
    | none => filtered
  (sorted.drop skip).take limit

/-- One filter condition of `BaseRepository.count`
(`app/repositories/base.py:259-276`): for every key that is a model
attribute with a non-`None` value the code appends `column == value` — the
raw value, whatever its shape. -/
def countMatch (p : Catalog.Product) (k : String) (v : Catalog.FilterVal) : Bool :=
  if Catalog.Product.hasField k && v ≠ Catalog.FilterVal.nullF then
    match v with
    | .scalar x => Catalog.Value.eqb (p.getField k) x
    | _ => true
  else true

/-- `BaseRepository.count`: unlike `get_multi` it never interprets dict or
list filter values — they are bound as equality parameters, and the driver
cannot encode a dict or a list for a scalar column comparison, so the query
raises at execution time (modelled as `none`). -/
def count (rows : List Catalog.Product) (fs : Catalog.Filters) : Option Nat :=
  if fs.all (fun kv => !(Catalog.Product.hasField kv.1) || kv.2.bindable) then
    some ((rows.filter (fun p => fs.all (fun kv => countMatch p kv.1 kv.2))).length)
  else none

end BaseRepository

namespace ProductRepository

/-- Whether one keyword filter of `ProductRepository.get_multi_with_suppliers`
(`app/repositories/product.py:47-67`) can be compiled and executed without a
driver error. A condition errors only when a non-scalar value reaches an
equality binding: under key `category` when truthy, or under the final
`hasattr` exact-match branch. The dedicated `price_range`/`stock_range`
branches read scalar bounds out of the dict and always bind. -/
def condValid (k : String) (v : Catalog.FilterVal) : Bool :=
  if k == "category" && v.truthy then v.bindable
  else if k == "price_range" && v matches Catalog.FilterVal.range _ _ then true
  else if k == "stock_range" && v matches Catalog.FilterVal.range _ _ then true
  else if Catalog.Product.hasField k && v ≠ Catalog.FilterVal.nullF then v.bindable
  else true

/-- An inclusive range condition `column >= min AND column <= max`, either
bound optional, on column `f`. -/
def rangeHolds (p : Catalog.Product) (f : String) :
    Option Catalog.Value → Option Catalog.Value → Bool
  | mn, mx =>
    (match mn with
     | some x => Catalog.Value.le x (p.getField f)
     | none => true) &&
    (match mx with
     | some x => Catalog.Value.le (p.getField f) x
     | none => true)

/-- One filter condition of `get_multi_with_suppliers`, evaluated at a row:
`category` exact-matches when truthy, `price_range`/`stock_range` dicts
bound `price`/`stock_quantity`, any other model attribute with a non-`None`
value exact-matches, everything else is skipped. -/
def condHolds (p : Catalog.Product) (k : String) (v : Catalog.FilterVal) : Bool :=
  if k == "category" && v.truthy then
    match v with
    | .scalar x => Catalog.Value.eqb (p.getField "category") x
    | _ => true
  else if k == "price_range" && v matches Catalog.FilterVal.range _ _ then
    match v with
    | .range mn mx => rangeHolds p "price" mn mx
    | _ => true
  else if k == "stock_range" && v matches Catalog.FilterVal.range _ _ then
    match v with
    | .range mn mx => rangeHolds p "stock_quantity" mn mx
    | _ => true
  else if Catalog.Product.hasField k && v ≠ Catalog.FilterVal.nullF then
    match v with
    | .scalar x => Catalog.Value.eqb (p.getField k) x
    | _ => true
  else true

/-- `ProductRepository.get_multi_with_suppliers`
(`app/repositories/product.py:30-83`): filter, then sort by the requested
column when `sort_by` is truthy and a model attribute, otherwise fall back
to `ORDER BY Product.id ASC`; then `OFFSET skip LIMIT limit`. `none` models
a query that raises at execution because a filter value could not be bound
as a parameter. -/
def get_multi_with_suppliers (rows : List Catalog.Product) (skip limit : Nat)
    (sortBy : Option String) (sortOrder : Option String) (fs : Catalog.Filters) :
    Option (List Catalog.Product) :=
  if fs.all (fun kv => condValid kv.1 kv.2) then
    let filtered := rows.filter (fun p => fs.all (fun kv => condHolds p kv.1 kv.2))
    let descFlag := match sortOrder with
      | some o => o.toLower == "desc"
      | none => false
    let sorted :=
      match sortBy with
      | some f =>
          if f ≠ "" && Catalog.Product.hasField f then
            BaseRepository.sortRows f descFlag filtered
          else BaseRepository.sortRows "id" false filtered
      | none => BaseRepository.sortRows "id" false filtered
    some ((sorted.drop skip).take limit)
  else none

end ProductRepository

/-- The persistent store as seen by the product side of the service:
the three tables plus the auto-increment counters and the wall clock
(`datetime.utcnow()` ticks). -/
structure DB where
  products : List Product
  priceHistory : List PriceHistoryRow
  stockHistory : List StockHistoryRow
  nextProductId : Nat
  nextPriceHistoryId : Nat
  nextStockHistoryId : Nat
  clock : Nat
deriving DecidableEq, Repr

/-- `session.get(Product, id)`: primary-key lookup. -/
def DB.findProduct (db : DB) (id : Nat) : Option Product :=
  db.products.find? (fun p => p.id == id)

namespace PriceHistoryRepository

/-- Descending-timestamp order used by every history read. -/
def tsDescP (a b : PriceHistoryRow) : Prop := b.timestamp ≤ a.timestamp

instance : DecidableRel tsDescP := by
  intro a b
  unfold tsDescP
  infer_instance

/-- `PriceHistoryRepository.get_by_product_id`
(`app/repositories/history.py:20-38`): rows of the product, newest first,
then `OFFSET skip LIMIT limit`. -/
def get_by_product_id (rows : List PriceHistoryRow) (product_id : Nat)
    (skip limit : Nat) : List PriceHistoryRow :=
  let filtered := rows.filter (fun r => r.product_id == product_id)
  let sorted := List.insertionSort tsDescP filtered
  (sorted.drop skip).take limit

/-- `PriceHistoryRepository.get_by_date_range`
(`app/repositories/history.py:40-69`): product rows restricted to the
inclusive date window (both bounds, only a lower, only an upper, or none),
newest first, then paginated. -/
def get_by_date_range (rows : List PriceHistoryRow) (product_id : Nat)
    (start_date end_date : Option Nat) (skip limit : Nat) :
    List PriceHistoryRow :=
  let inWindow : PriceHistoryRow → Bool := fun r =>
    match start_date, end_date with
    | some s, some e => s ≤ r.timestamp && r.timestamp ≤ e
    | some s, none => s ≤ r.timestamp
    | none, some e => r.timestamp ≤ e
    | none, none => true
  let filtered := rows.filter (fun r => r.product_id == product_id && inWindow r)
  let sorted := List.insertionSort tsDescP filtered
  (sorted.drop skip).take limit

/-- `PriceHistoryRepository.add_price_change`
(`app/repositories/history.py:71-91`): append one immutable row stamped
with the current time and commit. -/
def add_price_change (db : DB) (product_id : Nat) (old_price new_price : ℚ) : DB :=
  { db with
    priceHistory := db.priceHistory ++
      [{ id := db.nextPriceHistoryId, product_id := product_id,
         old_price := old_price, new_price := new_price,
         timestamp := db.clock }]
    nextPriceHistoryId := db.nextPriceHistoryId + 1
    clock := db.clock + 1 }

end PriceHistoryRepository

namespace StockHistoryRepository

/-- Descending-timestamp order used by every history read. -/
def tsDescS (a b : StockHistoryRow) : Prop := b.timestamp ≤ a.timestamp

instance : DecidableRel tsDescS := by
  intro a b
  unfold tsDescS
  infer_instance

/-- `StockHistoryRepository.get_by_product_id`
(`app/repositories/history.py:102-120`). -/
def get_by_product_id (rows : List StockHistoryRow) (product_id : Nat)
    (skip limit : Nat) : List StockHistoryRow :=
  let filtered := rows.filter (fun r => r.product_id == product_id)
  let sorted := List.insertionSort tsDescS filtered
  (sorted.drop skip).take limit

/-- `StockHistoryRepository.get_by_date_range`
(`app/repositories/history.py:122-151`). -/
def get_by_date_range (rows : List StockHistoryRow) (product_id : Nat)
    (start_date end_date : Option Nat) (skip limit : Nat) :
    List StockHistoryRow :=
  let inWindow : StockHistoryRow → Bool := fun r =>
    match start_date, end_date with
    | some s, some e => s ≤ r.timestamp && r.timestamp ≤ e
    | some s, none => s ≤ r.timestamp
    | none, some e => r.timestamp ≤ e
    | none, none => true
  let filtered := rows.filter (fun r => r.product_id == product_id && inWindow r)
  let sorted := List.insertionSort tsDescS filtered
  (sorted.drop skip).take limit

/-- `StockHistoryRepository.add_stock_change`
(`app/repositories/history.py:153-176`): append one immutable row carrying
the optional change reason and commit. -/
def add_stock_change (db : DB) (product_id : Nat) (old_quantity new_quantity : Int)
    (change_reason : Option String) : DB :=
  { db with
    stockHistory := db.stockHistory ++
      [{ id := db.nextStockHistoryId, product_id := product_id,
         old_quantity := old_quantity, new_quantity := new_quantity,
         change_reason := change_reason, timestamp := db.clock }]
    nextStockHistoryId := db.nextStockHistoryId + 1
    clock := db.clock + 1 }

end StockHistoryRepository

/-- `ProductCreate` request body (`app/schemas/product.py`, `ProductBase`):
all tracked fields of a new product. `discount` defaults to `0`. -/
structure ProductCreateIn where
  name : String
  price : ℚ
  description : Option String := none
  stock_quantity : Int
  category : Option String := none
  discount : ℚ := 0
deriving DecidableEq, Repr

/-- Whether a rational is an exact amount of hundredths — the shape every
price with at most two decimal places has. -/
def twoDecimals (q : ℚ) : Bool := (q * 100).den == 1

/-- Pydantic validation of `ProductCreate`: the field constraints
(`name` length 3..100, `price > 0`, `stock_quantity >= 0`,
`discount` in 0..100) plus the `validate_price` validator (price not
negative — subsumed by `gt=0` — and at most 2 decimal places). -/
def productCreateValid (c : ProductCreateIn) : Bool :=
  3 ≤ c.name.length && c.name.length ≤ 100 &&
  decide (0 < c.price) &&
  decide (0 ≤ c.stock_quantity) &&
  decide (0 ≤ c.discount) && decide (c.discount ≤ 100) &&
  twoDecimals c.price

/-- `ProductUpdate` request body (`app/schemas/product.py`,
`ProductUpdate`): every field optional; `some` models a field present in
the patch (`exclude_unset` keeps only supplied fields; the modelled fields
are non-null whenever supplied). -/
structure ProductUpdateIn where
  name : Option String := none
  price : Option ℚ := none
  description : Option String := none
  stock_quantity : Option Int := none
  category : Option String := none
  discount : Option ℚ := none
  change_reason : Option String := none
deriving DecidableEq, Repr

/-- Pydantic validation of `ProductUpdate`: per-field constraints apply
only to supplied fields (`price > 0` with at most 2 decimal places via
`v * 100 == int(v * 100)`, `name` length 3..100, `stock_quantity >= 0`,
`discount` in 0..100). -/
def productUpdateValid (u : ProductUpdateIn) : Bool :=
  (match u.name with
   | some n => 3 ≤ n.length && n.length ≤ 100
   | none => true) &&
  (match u.price with
   | some pr => decide (0 < pr) && twoDecimals pr
   | none => true) &&
  (match u.stock_quantity with
   | some sq => decide (0 ≤ sq)
   | none => true) &&
  (match u.discount with
   | some d => decide (0 ≤ d) && decide (d ≤ 100)
   | none => true)

namespace ProductRepository

/-- `BaseRepository.update` applied to a product
(`app/repositories/base.py:157-181`): set each model field present in the
patch, leave the rest untouched; the `onupdate` hook stamps
`updated_at = utcnow()`. `change_reason` is not a model column and is never
applied. -/
def applyPatch (p : Product) (u : ProductUpdateIn) (now : Nat) : Product :=
  { p with
    name := u.name.getD p.name
    price := u.price.getD p.price
    description := match u.description with
      | some d => some d
      | none => p.description
    stock_quantity := u.stock_quantity.getD p.stock_quantity
    category := match u.category with
      | some c => some c
      | none => p.category
    discount := u.discount.getD p.discount
    updated_at := now }

/-- `ProductRepository.create` via `BaseRepository.create`
(`app/repositories/base.py:127-136`): insert a row with a generated id and
timestamps and commit. -/
def createRow (db : DB) (c : ProductCreateIn) : DB × Product :=
  let row : Product :=
    { id := db.nextProductId, name := c.name, price := c.price,
      description := c.description, stock_quantity := c.stock_quantity,
      category := c.category, discount := c.discount,
      created_at := db.clock, updated_at := db.clock }
  ({ db with
      products := db.products ++ [row]
      nextProductId := db.nextProductId + 1
      clock := db.clock + 1 }, row)

/-- `ProductRepository.delete` (`app/repositories/product.py:422-430`):
remove the row with the given primary key and commit; the
`cascade="all, delete-orphan"` relationships delete the product's price and
stock history rows with it. -/
def deleteRow (db : DB) (id : Nat) : DB :=
  { db with
    products := db.products.filter (fun p => p.id ≠ id)
    priceHistory := db.priceHistory.filter (fun r => r.product_id ≠ id)
    stockHistory := db.stockHistory.filter (fun r => r.product_id ≠ id) }

end ProductRepository

namespace ProductService

/-- `ProductService.update_product` (`app/services/product.py:109-161`):
fetch the product (the repository raises `NotFoundException` when the id is
absent — the service's own 404 branch is unreachable because `get` never
returns `None`), append a `PriceHistory` row when the patch supplies a
price different from the current one, append a `StockHistory` row (carrying
`change_reason`) when it supplies a different stock quantity, then apply
the patch and commit. -/
def update_product (db : DB) (id : Nat) (patch : ProductUpdateIn)
    (change_reason : Option String) : DB × Except ApiError Product :=
  match db.findProduct id with
  | none =>
      (db, .error (.notFoundExc ("Product with id " ++ toString id ++ " not found")))
  | some product =>
      let db1 :=
        match patch.price with
        | some np =>
            if np ≠ product.price then
              PriceHistoryRepository.add_price_change db product.id product.price np
            else db
        | none => db
      let db2 :=
        match patch.stock_quantity with
        | some nq =>
            if nq ≠ product.stock_quantity then
              StockHistoryRepository.add_stock_change db1 product.id
                product.stock_quantity nq change_reason
            else db1
        | none => db1
      let updated := ProductRepository.applyPatch product patch db2.clock
      let db3 :=
        { db2 with
            products := db2.products.map (fun p => if p.id == id then updated else p)
            clock := db2.clock + 1 }
      (db3, .ok updated)

/-- The loop body of `ProductService.batch_delete_products`
(`app/services/product.py:385-413`): for each id in order, fetch (the
repository raises `NotFoundException` on the first absent id — the
service's `not_found_ids` collection is unreachable dead code), record the
row, delete it and commit, then move on. Deletions performed before a miss
are already committed when the exception propagates. -/
def batch_delete_loop (db : DB) (acc : List Product) :
    List Nat → DB × Except ApiError (List Product)
  | [] => (db, .ok acc)
  | i :: rest =>
      match db.findProduct i with
      | some p => batch_delete_loop (ProductRepository.deleteRow db i) (acc ++ [p]) rest
      | none =>
          (db, .error (.notFoundExc ("Product with id " ++ toString i ++ " not found")))

/-- `ProductService.batch_delete_products`: delete the listed ids in order,
stopping with a `NotFoundException` at the first absent id. -/
def batch_delete_products (db : DB) (ids : List Nat) :
    DB × Except ApiError (List Product) :=
  batch_delete_loop db [] ids

/-- `ProductService.create_product` (`app/services/product.py:81-106`)
reached through the API boundary: pydantic rejects an invalid body with a
422 before the handler runs; otherwise the repository inserts the row.
Supplier association bookkeeping is outside the modelled state. -/
def api_create_product (db : DB) (c : ProductCreateIn) :
    DB × Except ApiError Product :=
  if productCreateValid c then
    let r := ProductRepository.createRow db c
    (r.1, .ok r.2)
  else (db, .error (.httpExc 422 "validation error"))

/-- The `PUT /products/{id}` handler
(`app/api/v1/endpoints/product.py:126-143`) reached through the API
boundary: pydantic validates the `ProductUpdate` body, the handler pops
`change_reason` out of the patch and passes it separately to
`update_product`. -/
def api_update_product (db : DB) (id : Nat) (u : ProductUpdateIn) :
    DB × Except ApiError Product :=
  if productUpdateValid u then
    update_product db id { u with change_reason := none } u.change_reason
  else (db, .error (.httpExc 422 "validation error"))

end ProductService

namespace ProductAPI

/-- Pagination resolution of the `GET /products/` handler
(`app/api/v1/endpoints/product.py:46-53`): `actual_size` is `size` when
supplied, else `limit`; when `page` is supplied the effective window
becomes `skip = (page - 1) * actual_size`, `limit = actual_size`, otherwise
the raw `skip`/`limit` stand. Returns the effective `(skip, limit)`. -/
def resolveSkipLimit (skip limit : Int) (page size : Option Int) : Int × Int :=
  let actual_size := size.getD limit
  match page with
  | some p => ((p - 1) * actual_size, actual_size)
  | none => (skip, limit)

/-- The `pages` field of a `ProductListResponse`
(`app/api/v1/endpoints/product.py:97`):
`(total + current_size - 1) // current_size if current_size > 0 else 1`.
Python `//` is floor division; the dividend is nonnegative whenever the
guard holds, so Euclidean division coincides with it. -/
def pagesFor (total : Nat) (size : Int) : Int :=
  if 0 < size then ((total : Int) + size - 1) / size else 1

/-- What a call of the `DELETE /products/batch` handler produces:
a success body `{"deleted": [...]}`; an `HTTPException` rendered as an
HTTP error; or an exception the handler does not catch at all, which
escapes to the framework as an internal server error. -/
inductive BatchDeleteOutcome where
  | success : List Nat → BatchDeleteOutcome
  | httpError : Nat → String → BatchDeleteOutcome
  | unhandled : String → BatchDeleteOutcome
deriving DecidableEq, Repr

/-- Substring test (Python `in` on strings). -/
def containsSub (s sub : String) : Bool := 2 ≤ (s.splitOn sub).length

/-- The `DELETE /products/batch` handler
(`app/api/v1/endpoints/product.py:208-257`), after query-string parsing:
empty id list → 400; otherwise call the strict service delete. The
handler's lenient fallback catches only `HTTPException` with status 404 and
"not found" in the detail — but the miss actually surfaces as the
repository's `NotFoundException`, a plain `Exception`, which the
`except HTTPException` clause does not catch, so it escapes unhandled.
Were the fallback ever entered, it would call
`commons.product_service.batch_delete_products_silently`, a method that
does not exist on `ProductService` (the function of that name in the
endpoint module is free-standing and never attached), raising
`AttributeError`. -/
def batch_delete_endpoint (db : DB) (ids : List Nat) :
    DB × BatchDeleteOutcome :=
  if ids.isEmpty then
    (db, .httpError 400 "No valid product IDs provided")
  else
    let r := ProductService.batch_delete_products db ids
    match r.2 with
    | .ok deleted => (r.1, .success (deleted.map (fun p => p.id)))
    | .error (.httpExc code msg) =>
        if code == 404 && containsSub msg.toLower "not found" then
          (r.1, .unhandled
            "AttributeError: 'ProductService' object has no attribute 'batch_delete_products_silently'")
        else (r.1, .httpError code msg)
    | .error (.notFoundExc msg) => (r.1, .unhandled msg)

end ProductAPI

/-- `SupplierCreate` request body (`app/schemas/supplier.py`). -/
structure SupplierCreateIn where
  name : String
  contact_info : String
  credit_rating : Int
deriving DecidableEq, Repr

/-- `SupplierUpdate` request body: every field optional. -/
structure SupplierUpdateIn where
  name : Option String := none
  contact_info : Option String := none
  credit_rating : Option Int := none
deriving DecidableEq, Repr

/-- The suppliers table with its auto-increment counter and clock. -/
structure SupplierStore where
  suppliers : List Supplier
  nextSupplierId : Nat
  clock : Nat
deriving DecidableEq, Repr

namespace SupplierRepository

/-- `BaseRepository.create` at the `Supplier` entity. -/
def createRow (st : SupplierStore) (c : SupplierCreateIn) : SupplierStore × Supplier :=
  let row : Supplier :=
    { id := st.nextSupplierId, name := c.name, contact_info := c.contact_info,
      credit_rating := c.credit_rating, created_at := st.clock,
      updated_at := st.clock }
  ({ st with
      suppliers := st.suppliers ++ [row]
      nextSupplierId := st.nextSupplierId + 1
      clock := st.clock + 1 }, row)

/-- `BaseRepository.batch_create` at the `Supplier` entity
(`app/repositories/base.py:138-155`): insert every row, then one commit. -/
def batch_create (st : SupplierStore) (cs : List SupplierCreateIn) :
    SupplierStore × List Supplier :=
  match cs with
  | [] => (st, [])
  | c :: rest =>
      let r := createRow st c
      let r2 := batch_create r.1 rest
      (r2.1, r.2 :: r2.2)

/-- `BaseRepository.update` at the `Supplier` entity: apply the supplied
fields, stamp `updated_at`, commit. -/
def applyPatch (s : Supplier) (u : SupplierUpdateIn) (now : Nat) : Supplier :=
  { s with
    name := u.name.getD s.name
    contact_info := u.contact_info.getD s.contact_info
    credit_rating := u.credit_rating.getD s.credit_rating
    updated_at := now }

end SupplierRepository

namespace SupplierService

/-- `SupplierService.create_supplier` (`app/services/supplier.py:72-85`):
reject a credit rating outside `[0, 5]` with a 400 before the repository is
touched; otherwise insert. -/
def create_supplier (st : SupplierStore) (c : SupplierCreateIn) :
    SupplierStore × Except ApiError Supplier :=
  if c.credit_rating < 0 || 5 < c.credit_rating then
    (st, .error (.httpExc 400 "Credit rating must be between 0 and 5"))
  else
    let r := SupplierRepository.createRow st c
    (r.1, .ok r.2)

/-- `SupplierService.update_supplier` (`app/services/supplier.py:87-119`):
fetch (the repository raises `NotFoundException` on a missing id), validate
a supplied credit rating against `[0, 5]`, then update. -/
def update_supplier (st : SupplierStore) (id : Nat) (u : SupplierUpdateIn) :
    SupplierStore × Except ApiError Supplier :=
  match st.suppliers.find? (fun s => s.id == id) with
  | none =>
      (st, .error (.notFoundExc ("Supplier with id " ++ toString id ++ " not found")))
  | some s =>
      match u.credit_rating with
      | some r =>
          if r < 0 || 5 < r then
            (st, .error (.httpExc 400 "Credit rating must be between 0 and 5"))
          else
            let s2 := SupplierRepository.applyPatch s u st.clock
            ({ st with
                suppliers := st.suppliers.map (fun x => if x.id == id then s2 else x)
                clock := st.clock + 1 }, .ok s2)
      | none =>
          let s2 := SupplierRepository.applyPatch s u st.clock
          ({ st with
              suppliers := st.suppliers.map (fun x => if x.id == id then s2 else x)
              clock := st.clock + 1 }, .ok s2)

/-- `SupplierService.batch_create_suppliers`
(`app/services/supplier.py:136-155`): validate every record's credit rating
first — the loop raises a 400 at the first out-of-range record, before any
insert — and only then create all rows. -/
def batch_create_suppliers (st : SupplierStore) (cs : List SupplierCreateIn) :
    SupplierStore × Except ApiError (List Supplier) :=
  match cs.find? (fun c => decide (c.credit_rating < 0) || decide (5 < c.credit_rating)) with
  | some _ => (st, .error (.httpExc 400 "Credit rating must be between 0 and 5"))
  | none =>
      let r := SupplierRepository.batch_create st cs
      (r.1, .ok r.2)

end SupplierService

/-! Concrete sample data used by witnesses and counterexamples. -/

/-- A concrete product row. -/
def sampleProduct : Product :=
  { id := 1, name := "Widget", price := 19, description := some "a widget",
    stock_quantity := 5, category := some "tools", discount := 0,
    created_at := 0, updated_at := 0 }

/-- A second concrete product row. -/
def sampleProduct2 : Product :=
  { id := 2, name := "Gadget", price := 5, description := none,
    stock_quantity := 3, category := none, discount := 0,
    created_at := 0, updated_at := 0 }

/-- A concrete store holding the two sample products and no history. -/
def sampleDB : DB :=
  { products := [sampleProduct, sampleProduct2], priceHistory := [],
    stockHistory := [], nextProductId := 3, nextPriceHistoryId := 1,
    nextStockHistoryId := 1, clock := 10 }

/-- A patch raising the sample product price from 19 to 24. -/
def patchRaise : ProductUpdateIn := { price := some 24 }

/-- A patch re-submitting the sample product current price 19. -/
def patchSame : ProductUpdateIn := { price := some 19 }

/-- A patch changing stock and carrying a change reason. -/
def patchStock : ProductUpdateIn :=
  { stock_quantity := some 7, change_reason := some "restock" }

/-- A patch carrying only a change reason and no stock change. -/
def patchReasonOnly : ProductUpdateIn := { change_reason := some "note" }

instance : IsTotal PriceHistoryRow PriceHistoryRepository.tsDescP :=
  ⟨fun a b => Nat.le_total b.timestamp a.timestamp⟩

instance : IsTrans PriceHistoryRow PriceHistoryRepository.tsDescP :=
  ⟨fun _ _ _ hab hbc => Nat.le_trans hbc hab⟩

instance : IsTotal StockHistoryRow StockHistoryRepository.tsDescS :=
  ⟨fun a b => Nat.le_total b.timestamp a.timestamp⟩

instance : IsTrans StockHistoryRow StockHistoryRepository.tsDescS :=
  ⟨fun _ _ _ hab hbc => Nat.le_trans hbc hab⟩

/-- A concrete supplier row. -/
def sampleSupplier : Supplier :=
  { id := 1, name := "Acme", contact_info := "acme@example.com",
    credit_rating := 3, created_at := 0, updated_at := 0 }

/-- A concrete supplier store holding one supplier. -/
def sampleSupplierStore : SupplierStore :=
  { suppliers := [sampleSupplier], nextSupplierId := 2, clock := 5 }

/-- A supplier create request with an out-of-range rating. -/
def badSupplierCreate : SupplierCreateIn :=
  { name := "Bad", contact_info := "bad@example.com", credit_rating := 6 }

/-- A supplier create request with a valid rating. -/
def goodSupplierCreate : SupplierCreateIn :=
  { name := "Good", contact_info := "good@example.com", credit_rating := 4 }

/-- A supplier update raising the rating out of range. -/
def badSupplierUpdate : SupplierUpdateIn := { credit_rating := some 6 }

/-- A product create request whose price is exactly 0. -/
def zeroPriceCreate : ProductCreateIn :=
  { name := "Zero", price := 0, stock_quantity := 1 }

/-- A valid product create request. -/
def goodCreate : ProductCreateIn :=
  { name := "Fresh", price := 7, stock_quantity := 2 }

/-- A `{min}` range filter on `price`, as the list endpoints build it. -/
def rangeFilter : Filters := [("price", .range (some (.intV 0)) none)]

/-- An exact-match scalar filter on `category`. -/
def scalarFilter : Filters := [("category", .scalar (.strV "tools"))]

/-! Helper lemmas shared by the claim theorems. -/

lemma pairwise_drop_take {α : Type} {r : α → α → Prop} {l : List α}
    (h : List.Pairwise r l) (skip limit : Nat) :
    List.Pairwise r ((l.drop skip).take limit) :=
  List.Pairwise.sublist ((List.take_sublist _ _).trans (List.drop_sublist _ _)) h

/-- The `pages` formula of the list response is the ceiling of
`total / size` whenever `size` is positive. -/
lemma pages_eq_ceil (t : Nat) (s : Int) (hs : 0 < s) :
    ProductAPI.pagesFor t s = ⌈(t : ℚ) / (s : ℚ)⌉ := by
  unfold ProductAPI.pagesFor
  rw [if_pos hs]
  have hsQ : (0 : ℚ) < (s : ℚ) := by exact_mod_cast hs
  have hmod : 0 ≤ ((t : ℤ) + s - 1) % s :=
    Int.emod_nonneg _ (by omega)
  have hmodlt : ((t : ℤ) + s - 1) % s < s :=
    Int.emod_lt_of_pos _ hs
  have key : s * (((t : ℤ) + s - 1) / s) + ((t : ℤ) + s - 1) % s = (t : ℤ) + s - 1 :=
    Int.ediv_add_emod _ _
  have hz1 : ((((t : ℤ) + s - 1) / s : ℤ) - 1) * s < (t : ℤ) := by linarith
  have hz2 : (t : ℤ) ≤ (((t : ℤ) + s - 1) / s : ℤ) * s := by linarith
  symm
  rw [Int.ceil_eq_iff]
  constructor
  · rw [lt_div_iff₀ hsQ]
    exact_mod_cast hz1
  · rw [div_le_iff₀ hsQ]
    exact_mod_cast hz2

/-! Facts about `ProductService.update_product` shared by several claim
theorems below. -/

lemma update_product_priceHistory_changed (db : DB) (id : Nat)
    (patch : ProductUpdateIn) (cr : Option String) (product : Product) (np : ℚ)
    (hf : db.findProduct id = some product) (hpp : patch.price = some np)
    (hne : np ≠ product.price) :
    (ProductService.update_product db id patch cr).1.priceHistory =
      db.priceHistory ++
        [{ id := db.nextPriceHistoryId, product_id := product.id,
           old_price := product.price, new_price := np,
           timestamp := db.clock }] := by
  rcases hsq : patch.stock_quantity with _ | nq
  · simp only [ProductService.update_product, hf, hpp, hsq]
    rw [if_pos hne]
    rfl
  · simp only [ProductService.update_product, hf, hpp, hsq]
    rw [if_pos hne]
    split_ifs <;> rfl

lemma update_product_priceHistory_unchanged (db : DB) (id : Nat)
    (patch : ProductUpdateIn) (cr : Option String) (product : Product)
    (hf : db.findProduct id = some product)
    (h : patch.price = none ∨ patch.price = some product.price) :
    (ProductService.update_product db id patch cr).1.priceHistory =
      db.priceHistory := by
  rcases hsq : patch.stock_quantity with _ | nq <;>
    rcases h with h | h <;>
      simp only [ProductService.update_product, hf, h, hsq]
  all_goals try split_ifs
  all_goals
    simp_all [PriceHistoryRepository.add_price_change,
      StockHistoryRepository.add_stock_change]

lemma update_product_stockHistory_changed (db : DB) (id : Nat)
    (patch : ProductUpdateIn) (cr : Option String) (product : Product) (nq : Int)
    (hf : db.findProduct id = some product) (hsq : patch.stock_quantity = some nq)
    (hne : nq ≠ product.stock_quantity) :
    ∃ t i, (ProductService.update_product db id patch cr).1.stockHistory =
      db.stockHistory ++
        [{ id := i, product_id := product.id,
           old_quantity := product.stock_quantity, new_quantity := nq,
           change_reason := cr, timestamp := t }] := by
  rcases hpp : patch.price with _ | np
  · simp only [ProductService.update_product, hf, hpp, hsq]
    rw [if_pos hne]
    exact ⟨_, _, rfl⟩
  · simp only [ProductService.update_product, hf, hpp, hsq]
    rw [if_pos hne]
    split_ifs <;> exact ⟨_, _, rfl⟩

lemma update_product_stockHistory_unchanged (db : DB) (id : Nat)
    (patch : ProductUpdateIn) (cr : Option String) (product : Product)
    (hf : db.findProduct id = some product)
    (h : patch.stock_quantity = none ∨
         patch.stock_quantity = some product.stock_quantity) :
    (ProductService.update_product db id patch cr).1.stockHistory =
      db.stockHistory := by
  rcases hpp : patch.price with _ | np <;>
    rcases h with h | h <;>
      simp only [ProductService.update_product, hf, h, hpp]
  all_goals try split_ifs
  all_goals
    simp_all [PriceHistoryRepository.add_price_change,
      StockHistoryRepository.add_stock_change]

lemma update_product_products_eq (db : DB) (id : Nat)
    (patch : ProductUpdateIn) (cr : Option String) (product : Product)
    (hf : db.findProduct id = some product) :
    ∃ now, (ProductService.update_product db id patch cr).1.products =
      db.products.map (fun p =>
        if p.id == id then ProductRepository.applyPatch product patch now else p) := by
  rcases hpp : patch.price with _ | np <;>
    rcases hsq : patch.stock_quantity with _ | nq <;>
      simp only [ProductService.update_product, hf, hpp, hsq]
  · exact ⟨_, rfl⟩
  · split_ifs <;> exact ⟨_, rfl⟩
  · split_ifs <;> exact ⟨_, rfl⟩
  · split_ifs <;> exact ⟨_, rfl⟩

/-! Claim theorems. -/

/-- C9: every history read — `get_by_product_id` and `get_by_date_range`,
for both the price-history and the stock-history repository — returns its
records sorted by timestamp in descending order (newest first). -/
theorem c9_history_reads_newest_first (pr : List PriceHistoryRow)
    (sr : List StockHistoryRow) (pid skip limit : Nat) (sd ed : Option Nat) :
    (PriceHistoryRepository.get_by_product_id pr pid skip limit).Pairwise
      (fun a b => b.timestamp ≤ a.timestamp) ∧
    (PriceHistoryRepository.get_by_date_range pr pid sd ed skip limit).Pairwise
      (fun a b => b.timestamp ≤ a.timestamp) ∧
    (StockHistoryRepository.get_by_product_id sr pid skip limit).Pairwise
      (fun a b => b.timestamp ≤ a.timestamp) ∧
    (StockHistoryRepository.get_by_date_range sr pid sd ed skip limit).Pairwise
      (fun a b => b.timestamp ≤ a.timestamp) := by
  refine ⟨?_, ?_, ?_, ?_⟩
  · exact @pairwise_drop_take _ PriceHistoryRepository.tsDescP _
      (List.sorted_insertionSort _ _) skip limit
  · exact @pairwise_drop_take _ PriceHistoryRepository.tsDescP _
      (List.sorted_insertionSort _ _) skip limit
  · exact @pairwise_drop_take _ StockHistoryRepository.tsDescS _
      (List.sorted_insertionSort _ _) skip limit
  · exact @pairwise_drop_take _ StockHistoryRepository.tsDescS _
      (List.sorted_insertionSort _ _) skip limit

/-- C5: when both `skip`/`limit` and `page`/`size` are supplied, `page`/`size`
wins with `skip = (page - 1) * size` and `limit = size` (pages 1-based), and
the `pages` field equals `⌈total / size⌉`, with `size ≤ 0` yielding 1. -/
theorem c5_pagination (skip limit p s : Int) (total : Nat) :
    ProductAPI.resolveSkipLimit skip limit (some p) (some s) = ((p - 1) * s, s) ∧
    (0 < s → ProductAPI.pagesFor total s = ⌈(total : ℚ) / (s : ℚ)⌉) ∧
    (s ≤ 0 → ProductAPI.pagesFor total s = 1) := by
  refine ⟨rfl, fun hs => pages_eq_ceil total s hs, fun hs => ?_⟩
  unfold ProductAPI.pagesFor
  rw [if_neg (by omega)]

/-- Witness for C5 at the spec's own example: 15 rows, `page = 2`,
`size = 10` resolves to the window `skip = 10, limit = 10`, `pages = 2`,
and a nonpositive size yields a single page. -/
theorem c5_pagination_witness :
    ProductAPI.resolveSkipLimit 0 10 (some 2) (some 10) = (10, 10) ∧
    ProductAPI.pagesFor 15 10 = ⌈(15 : ℚ) / (10 : ℚ)⌉ ∧
    ProductAPI.pagesFor 15 0 = 1 := by
  refine ⟨?_, ?_, ?_⟩
  · have h := (c5_pagination 0 10 2 10 15).1
    simpa using h
  · exact (c5_pagination 0 10 2 10 15).2.1 (by norm_num)
  · exact (c5_pagination 0 10 2 0 15).2.2 (by norm_num)


/-- C4: an update whose patch contains `price` (resp. `stock_quantity`)
appends a `PriceHistory` (resp. `StockHistory`) row exactly when the
supplied value differs from the current one — and then exactly one row,
with old value the prior stored value and new value the supplied value;
re-supplying the current value appends nothing. -/
theorem c4_history_row_iff_value_changed (db : DB) (id : Nat)
    (patch : ProductUpdateIn) (cr : Option String) (product : Product)
    (hf : db.findProduct id = some product) :
    (∀ np, patch.price = some np → np ≠ product.price →
      (ProductService.update_product db id patch cr).1.priceHistory =
        db.priceHistory ++
          [{ id := db.nextPriceHistoryId, product_id := product.id,
             old_price := product.price, new_price := np,
             timestamp := db.clock }]) ∧
    (patch.price = some product.price ∨ patch.price = none →
      (ProductService.update_product db id patch cr).1.priceHistory =
        db.priceHistory) ∧
    (∀ nq, patch.stock_quantity = some nq → nq ≠ product.stock_quantity →
      ∃ t i, (ProductService.update_product db id patch cr).1.stockHistory =
        db.stockHistory ++
          [{ id := i, product_id := product.id,
             old_quantity := product.stock_quantity, new_quantity := nq,
             change_reason := cr, timestamp := t }]) ∧
    (patch.stock_quantity = some product.stock_quantity ∨
        patch.stock_quantity = none →
      (ProductService.update_product db id patch cr).1.stockHistory =
        db.stockHistory) := by
  refine ⟨?_, ?_, ?_, ?_⟩
  · intro np hnp hne
    exact update_product_priceHistory_changed db id patch cr product np hf hnp hne
  · intro h
    exact update_product_priceHistory_unchanged db id patch cr product hf
      (h.elim Or.inr Or.inl)
  · intro nq hnq hne
    exact update_product_stockHistory_changed db id patch cr product nq hf hnq hne
  · intro h
    exact update_product_stockHistory_unchanged db id patch cr product hf
      (h.elim Or.inr Or.inl)

/-- Witness for C4: raising the sample price from 19 to 24 appends exactly
the row (old 19, new 24); re-submitting 19 appends nothing. -/
theorem c4_witness :
    sampleDB.findProduct 1 = some sampleProduct ∧
    (ProductService.update_product sampleDB 1 patchRaise none).1.priceHistory =
      [{ id := 1, product_id := 1, old_price := 19,
         new_price := 24, timestamp := 10 }] ∧
    (ProductService.update_product sampleDB 1 patchSame none).1.priceHistory = [] := by
  refine ⟨by decide, ?_, ?_⟩
  · have h := (c4_history_row_iff_value_changed sampleDB 1 patchRaise none
      sampleProduct (by decide)).1 24 rfl (by decide)
    rw [h]
    decide
  · have h := (c4_history_row_iff_value_changed sampleDB 1 patchSame none
      sampleProduct (by decide)).2.1 (Or.inl (by decide))
    rw [h]
    rfl

/-- C8: a `change_reason` supplied with a product update is persisted — on
the newly appended `StockHistory` row — exactly when the same update
changes `stock_quantity`; without an accompanying stock change it is
silently dropped: the stock history is untouched, and no other stored
record type even has a `change_reason` field. -/
theorem c8_change_reason_persisted_iff_stock_change (db : DB) (id : Nat)
    (u : ProductUpdateIn) (r : String) (product : Product)
    (hf : db.findProduct id = some product) (hr : u.change_reason = some r)
    (hv : productUpdateValid u = true) :
    (∀ nq, u.stock_quantity = some nq → nq ≠ product.stock_quantity →
      ∃ t i, (ProductService.api_update_product db id u).1.stockHistory =
        db.stockHistory ++
          [{ id := i, product_id := product.id,
             old_quantity := product.stock_quantity, new_quantity := nq,
             change_reason := some r, timestamp := t }]) ∧
    (u.stock_quantity = some product.stock_quantity ∨ u.stock_quantity = none →
      (ProductService.api_update_product db id u).1.stockHistory =
        db.stockHistory) := by
  constructor
  · intro nq hnq hne
    have h := update_product_stockHistory_changed db id
      { u with change_reason := none } u.change_reason product nq hf hnq hne
    rw [hr] at h
    simpa [ProductService.api_update_product, hv, hr] using h
  · intro h
    have h2 := update_product_stockHistory_unchanged db id
      { u with change_reason := none } u.change_reason product hf
      (h.elim Or.inr Or.inl)
    simpa [ProductService.api_update_product, hv] using h2

/-- Witness for C8: an update changing stock 5 → 7 with reason "restock"
stores the reason on the single appended stock-history row; an update
supplying only a reason leaves the stock history empty. -/
theorem c8_witness :
    sampleDB.findProduct 1 = some sampleProduct ∧
    (∃ t i, (ProductService.api_update_product sampleDB 1 patchStock).1.stockHistory =
      [{ id := i, product_id := 1, old_quantity := 5, new_quantity := 7,
         change_reason := some "restock", timestamp := t }]) ∧
    (ProductService.api_update_product sampleDB 1 patchReasonOnly).1.stockHistory =
      [] := by
  refine ⟨by decide, ?_, ?_⟩
  · obtain ⟨t, i, h⟩ := (c8_change_reason_persisted_iff_stock_change sampleDB 1
      patchStock "restock" sampleProduct (by decide) rfl (by decide)).1 7 rfl
      (by decide)
    exact ⟨t, i, by simpa [sampleDB, sampleProduct] using h⟩
  · have h := (c8_change_reason_persisted_iff_stock_change sampleDB 1
      patchReasonOnly "note" sampleProduct (by decide) rfl (by decide)).2
      (Or.inr rfl)
    rw [h]
    rfl

/-- C6: a supplier create, single update, or batch create containing a
`credit_rating` outside `[0, 5]` is rejected with an error before any write:
the returned store is exactly the input store (no row persisted or
modified), and one bad record rejects a whole batch create. -/
theorem c6_credit_rating_rejected_before_write (st : SupplierStore)
    (c : SupplierCreateIn) (id : Nat) (u : SupplierUpdateIn)
    (cs : List SupplierCreateIn) :
    (c.credit_rating < 0 ∨ 5 < c.credit_rating →
      ∃ e, SupplierService.create_supplier st c = (st, .error e)) ∧
    (∀ r, u.credit_rating = some r → r < 0 ∨ 5 < r →
      ∃ e, SupplierService.update_supplier st id u = (st, .error e)) ∧
    ((∃ c0 ∈ cs, c0.credit_rating < 0 ∨ 5 < c0.credit_rating) →
      ∃ e, SupplierService.batch_create_suppliers st cs = (st, .error e)) := by
  refine ⟨?_, ?_, ?_⟩
  · intro h
    have hb : (decide (c.credit_rating < 0) || decide (5 < c.credit_rating)) = true := by
      rcases h with h | h <;> simp [h]
    exact ⟨ApiError.httpExc 400 "Credit rating must be between 0 and 5",
      by simp [SupplierService.create_supplier, hb]⟩
  · intro r hr h
    have hb : (decide (r < 0) || decide (5 < r)) = true := by
      rcases h with h | h <;> simp [h]
    cases hfind : st.suppliers.find? (fun s => s.id == id) with
    | none =>
        exact ⟨ApiError.notFoundExc ("Supplier with id " ++ toString id ++ " not found"),
          by simp [SupplierService.update_supplier, hfind]⟩
    | some s =>
        exact ⟨ApiError.httpExc 400 "Credit rating must be between 0 and 5",
          by simp [SupplierService.update_supplier, hfind, hr, hb]⟩
  · intro h
    obtain ⟨c0, hc0, hbad⟩ := h
    have hsome : (cs.find? (fun c1 =>
        decide (c1.credit_rating < 0) || decide (5 < c1.credit_rating))).isSome := by
      rw [List.find?_isSome]
      refine ⟨c0, hc0, ?_⟩
      rcases hbad with h | h <;> simp [h]
    obtain ⟨c1, hc1⟩ := Option.isSome_iff_exists.mp hsome
    exact ⟨ApiError.httpExc 400 "Credit rating must be between 0 and 5",
      by simp [SupplierService.batch_create_suppliers, hc1]⟩

/-- Witness for C6: creating, updating towards, or batch-creating with a
credit rating of 6 is rejected and the one-supplier store is returned
unchanged in all three cases. -/
theorem c6_witness :
    (∃ e, SupplierService.create_supplier sampleSupplierStore badSupplierCreate =
      (sampleSupplierStore, .error e)) ∧
    (∃ e, SupplierService.update_supplier sampleSupplierStore 1 badSupplierUpdate =
      (sampleSupplierStore, .error e)) ∧
    (∃ e, SupplierService.batch_create_suppliers sampleSupplierStore
      [goodSupplierCreate, badSupplierCreate] =
      (sampleSupplierStore, .error e)) := by
  have h := c6_credit_rating_rejected_before_write sampleSupplierStore
    badSupplierCreate 1 badSupplierUpdate [goodSupplierCreate, badSupplierCreate]
  refine ⟨h.1 (by decide), h.2.1 6 rfl (by decide), h.2.2 ?_⟩
  exact ⟨badSupplierCreate, by decide, by decide⟩

/-- C10: creation and update accept a price only when it is strictly
positive — a price of exactly 0 (or negative) fails validation — so every
product persisted through the validated API has `price > 0`. -/
theorem c10_price_accepted_only_if_positive (c : ProductCreateIn)
    (u : ProductUpdateIn) (db : DB) (id : Nat) :
    (productCreateValid c = true → 0 < c.price) ∧
    (c.price ≤ 0 → productCreateValid c = false) ∧
    (∀ pr, u.price = some pr → productUpdateValid u = true → 0 < pr) ∧
    (∀ pr, u.price = some pr → pr ≤ 0 → productUpdateValid u = false) ∧
    ((∀ p ∈ db.products, 0 < p.price) →
      (∀ p ∈ (ProductService.api_create_product db c).1.products, 0 < p.price) ∧
      (∀ p ∈ (ProductService.api_update_product db id u).1.products, 0 < p.price)) := by
  have hc : productCreateValid c = true → 0 < c.price := by
    intro hv
    unfold productCreateValid at hv
    simp only [Bool.and_eq_true, decide_eq_true_eq] at hv
    tauto
  have hu : ∀ pr, u.price = some pr → productUpdateValid u = true → 0 < pr := by
    intro pr hpr hv
    unfold productUpdateValid at hv
    rw [hpr] at hv
    simp only [Bool.and_eq_true, decide_eq_true_eq] at hv
    tauto
  refine ⟨hc, ?_, hu, ?_, ?_⟩
  · intro hle
    cases hv : productCreateValid c with
    | false => rfl
    | true => exact absurd (hc hv) (not_lt.mpr hle)
  · intro pr hpr hle
    cases hv : productUpdateValid u with
    | false => rfl
    | true => exact absurd (hu pr hpr hv) (not_lt.mpr hle)
  · intro hall
    constructor
    · intro p hp
      cases hv : productCreateValid c with
      | false =>
          simp only [ProductService.api_create_product, hv, Bool.false_eq_true,
            if_false] at hp
          exact hall p hp
      | true =>
          simp only [ProductService.api_create_product, hv, if_true,
            ProductRepository.createRow, List.mem_append,
            List.mem_singleton] at hp
          rcases hp with hp | rfl
          · exact hall p hp
          · exact hc hv
    · intro p hp
      cases hv : productUpdateValid u with
      | false =>
          simp only [ProductService.api_update_product, hv, Bool.false_eq_true,
            if_false] at hp
          exact hall p hp
      | true =>
          simp only [ProductService.api_update_product, hv, if_true] at hp
          cases hfind : db.findProduct id with
          | none =>
              simp only [ProductService.update_product, hfind] at hp
              exact hall p hp
          | some product =>
              obtain ⟨now, heq⟩ := update_product_products_eq db id
                { u with change_reason := none } u.change_reason product hfind
              rw [heq] at hp
              rcases List.mem_map.mp hp with ⟨q, hq, rfl⟩
              by_cases hqid : (q.id == id) = true
              · simp only [hqid, if_true]
                have hpx : (ProductRepository.applyPatch product
                    { u with change_reason := none } now).price =
                    Option.getD u.price product.price := rfl
                rw [hpx]
                cases hpp : u.price with
                | some pr => simpa using hu pr hpp hv
                | none =>
                    simpa using hall product (List.mem_of_find?_eq_some hfind)
              · simp only [hqid, if_false]
                exact hall q hq

/-- Witness for C10: a create with price exactly 0 fails validation, and a
valid create into the sample store keeps every stored price positive. -/
theorem c10_witness :
    productCreateValid zeroPriceCreate = false ∧
    (∀ p ∈ (ProductService.api_create_product sampleDB goodCreate).1.products,
      0 < p.price) := by
  constructor
  · exact (c10_price_accepted_only_if_positive zeroPriceCreate patchRaise
      sampleDB 1).2.1 (by decide)
  · exact ((c10_price_accepted_only_if_positive goodCreate patchRaise
      sampleDB 1).2.2.2.2 (by decide)).1

/-- On a bindable (scalar or `None`) filter value, the condition `count`
builds agrees with the condition `get_multi` builds. -/
lemma countMatch_eq_condHolds (p : Product) (k : String) (v : FilterVal)
    (hb : v.bindable = true) :
    BaseRepository.countMatch p k v = BaseRepository.condHolds p k v := by
  cases v with
  | scalar x =>
      by_cases hf : Product.hasField k = true <;>
        simp [BaseRepository.countMatch, BaseRepository.condHolds, hf]
  | nullF =>
      by_cases hf : Product.hasField k = true <;>
        simp [BaseRepository.countMatch, BaseRepository.condHolds, hf]
  | range mn mx => simp [FilterVal.bindable] at hb
  | oneOf xs => simp [FilterVal.bindable] at hb

lemma all_congr_mem {α : Type} {f g : α → Bool} (l : List α)
    (h : ∀ x ∈ l, f x = g x) : l.all f = l.all g := by
  induction l with
  | nil => rfl
  | cons a t ih =>
      simp only [List.all_cons, h a (by simp)]
      rw [ih (fun x hx => h x (by simp [hx]))]

/-- C1 (amended): for filter maps whose values are exact-match scalars or
`None`, `count` agrees with the length of an unpaginated `get_multi`; this
is the invariant restricted to where `count` interprets the filter at all
(the counterexample shows it fails for range and list values). -/
theorem c1_count_mirrors_list_for_scalar_filters (rows : List Product)
    (fs : Filters) (limit : Nat) (sortOrder : String)
    (h1 : ∀ kv ∈ fs, FilterVal.bindable kv.2 = true)
    (h2 : (rows.filter (BaseRepository.rowMatches fs)).length ≤ limit) :
    BaseRepository.count rows fs =
      some ((BaseRepository.get_multi rows 0 limit none sortOrder fs).length) := by
  have hguard : (fs.all fun kv => !(Product.hasField kv.1) || kv.2.bindable) = true := by
    rw [List.all_eq_true]
    intro kv hkv
    rw [h1 kv hkv]
    simp
  have hfeq : (rows.filter fun p => fs.all fun kv =>
      BaseRepository.countMatch p kv.1 kv.2) =
      rows.filter (BaseRepository.rowMatches fs) := by
    apply List.filter_congr
    intro p hp
    exact all_congr_mem fs (fun kv hkv =>
      countMatch_eq_condHolds p kv.1 kv.2 (h1 kv hkv))
  unfold BaseRepository.count BaseRepository.get_multi
  rw [if_pos hguard]
  simp only [List.drop_zero]
  rw [List.take_of_length_le h2, hfeq]

/-- Counterexample for C1: on a one-product store, a `{min: 0}` range
filter on `price` is honoured by `get_multi` (the row qualifies) while
`count` binds the dict as an equality parameter and raises (no integer):
the tested invariant `count(f) = len(list(0, ∞, f))` fails. -/
theorem c1_counterexample :
    BaseRepository.get_multi [sampleProduct] 0 100 none "asc" rangeFilter =
      [sampleProduct] ∧
    BaseRepository.count [sampleProduct] rangeFilter = none ∧
    decide (BaseRepository.count [sampleProduct] rangeFilter =
      some ((BaseRepository.get_multi [sampleProduct] 0 100 none "asc"
        rangeFilter).length)) = false := by
  refine ⟨by decide, by decide, by decide⟩

/-- Witness for C1 at a scalar filter: counting products in category
"tools" agrees with the length of the unpaginated filtered list. -/
theorem c1_witness :
    BaseRepository.count sampleDB.products scalarFilter =
      some ((BaseRepository.get_multi sampleDB.products 0 100 none "asc"
        scalarFilter).length) :=
  c1_count_mirrors_list_for_scalar_filters sampleDB.products scalarFilter 100
    "asc" (by decide) (by decide)

instance : IsTotal Product (BaseRepository.fieldLe "id") :=
  ⟨fun a b => by
    unfold BaseRepository.fieldLe
    have ha : Product.getField a "id" = Value.intV a.id := rfl
    have hb : Product.getField b "id" = Value.intV b.id := rfl
    rw [ha, hb]
    simp only [Value.le, decide_eq_true_eq]
    exact Int.le_total _ _⟩

instance : IsTrans Product (BaseRepository.fieldLe "id") :=
  ⟨fun a b c hab hbc => by
    unfold BaseRepository.fieldLe at hab hbc ⊢
    have ha : Product.getField a "id" = Value.intV a.id := rfl
    have hb : Product.getField b "id" = Value.intV b.id := rfl
    have hc : Product.getField c "id" = Value.intV c.id := rfl
    rw [ha, hb] at hab
    rw [hb, hc] at hbc
    rw [ha, hc]
    simp only [Value.le, decide_eq_true_eq] at hab hbc ⊢
    exact le_trans hab hbc⟩

/-- The `ORDER BY id ASC` fallback produces an id-ascending page. -/
lemma sortRows_id_pairwise (rows : List Product) (skip limit : Nat) :
    (((BaseRepository.sortRows "id" false rows).drop skip).take limit).Pairwise
      (fun a b => a.id ≤ b.id) := by
  have himp : ∀ a b : Product, BaseRepository.fieldLe "id" a b → a.id ≤ b.id := by
    intro a b hab
    unfold BaseRepository.fieldLe at hab
    have ha : Product.getField a "id" = Value.intV a.id := rfl
    have hb : Product.getField b "id" = Value.intV b.id := rfl
    rw [ha, hb] at hab
    simp only [Value.le, decide_eq_true_eq] at hab
    exact_mod_cast hab
  have hs : (BaseRepository.sortRows "id" false rows).Pairwise
      (BaseRepository.fieldLe "id") := by
    unfold BaseRepository.sortRows
    simp only [Bool.false_eq_true, if_false]
    exact List.sorted_insertionSort _ _
  exact pairwise_drop_take (hs.imp (fun hab => himp _ _ hab)) skip limit

/-- C7 (amended): an absent, empty, or unknown sort field never makes a
list query error; the product list (`get_multi_with_suppliers`) falls back
to a stable `ORDER BY id ASC`, while the generic `BaseRepository.get_multi`
applies no ordering at all and returns the filtered page in storage
order. -/
theorem c7_invalid_sort_default_order (rows : List Product) (skip limit : Nat)
    (sortBy : Option String) (sortOrder : Option String) (ord2 : String)
    (fs : Filters)
    (hsort : sortBy = none ∨
      ∃ f, sortBy = some f ∧ (f = "" ∨ Product.hasField f = false))
    (hfs : ∀ kv ∈ fs, ProductRepository.condValid kv.1 kv.2 = true) :
    (∃ res, ProductRepository.get_multi_with_suppliers rows skip limit sortBy
        sortOrder fs = some res ∧ res.Pairwise (fun a b => a.id ≤ b.id)) ∧
    BaseRepository.get_multi rows skip limit sortBy ord2 fs =
      ((rows.filter (BaseRepository.rowMatches fs)).drop skip).take limit := by
  have hguard : (fs.all fun kv => ProductRepository.condValid kv.1 kv.2) = true := by
    rw [List.all_eq_true]
    intro kv hkv
    exact hfs kv hkv
  rcases hsort with rfl | ⟨f, rfl, hinv⟩
  · constructor
    · unfold ProductRepository.get_multi_with_suppliers
      rw [if_pos hguard]
      exact ⟨_, rfl, sortRows_id_pairwise _ skip limit⟩
    · rfl
  · have hcond : (decide (f ≠ "") && Product.hasField f) = false := by
      rcases hinv with rfl | h
      · simp
      · simp [h]
    constructor
    · unfold ProductRepository.get_multi_with_suppliers
      rw [if_pos hguard]
      simp only [hcond, Bool.false_eq_true, if_false]
      exact ⟨_, rfl, sortRows_id_pairwise _ skip limit⟩
    · unfold BaseRepository.get_multi
      simp only [hcond, Bool.false_eq_true, if_false]

/-- Counterexample for C7: with rows stored in the order [id 2, id 1] and an
unknown sort field, the generic `BaseRepository.get_multi` applies no
fallback ordering — it returns the storage order [2, 1], which is not
ascending by identifier. -/
theorem c7_counterexample :
    BaseRepository.get_multi [sampleProduct2, sampleProduct] 0 10
      (some "bogus") "asc" [] = [sampleProduct2, sampleProduct] ∧
    decide ((BaseRepository.get_multi [sampleProduct2, sampleProduct] 0 10
        (some "bogus") "asc" []).Pairwise (fun a b => a.id ≤ b.id)) = false := by
  refine ⟨by decide, by decide⟩

/-- Witness for C7: the same unknown sort field makes the product list fall
back to id-ascending order while the base repository returns the filtered
page unsorted, and neither errors. -/
theorem c7_witness :
    (∃ res, ProductRepository.get_multi_with_suppliers
        [sampleProduct2, sampleProduct] 0 10 (some "bogus") none [] =
        some res ∧ res.Pairwise (fun a b => a.id ≤ b.id)) ∧
    BaseRepository.get_multi [sampleProduct2, sampleProduct] 0 10
        (some "bogus") "asc" [] =
      ((([sampleProduct2, sampleProduct]).filter
        (BaseRepository.rowMatches [])).drop 0).take 10 :=
  c7_invalid_sort_default_order [sampleProduct2, sampleProduct] 0 10
    (some "bogus") none "asc" []
    (Or.inr ⟨"bogus", rfl, Or.inr (by decide)⟩) (by simp)

/-- Running the strict batch-delete loop over a prefix of distinct,
present ids followed by an absent id: every prefix id is deleted (and
committed) before the absent id raises `NotFoundException`. -/
lemma batch_delete_loop_prefix (ids1 : List Nat) :
    ∀ (db : DB) (acc : List Product) (m : Nat) (ids2 : List Nat),
    ids1.Nodup →
    (∀ i ∈ ids1, ∃ p ∈ db.products, p.id = i) →
    (∀ p ∈ db.products, p.id ≠ m) →
    (ProductService.batch_delete_loop db acc (ids1 ++ m :: ids2)).2 =
      .error (.notFoundExc ("Product with id " ++ toString m ++ " not found")) ∧
    (ProductService.batch_delete_loop db acc (ids1 ++ m :: ids2)).1.products =
      db.products.filter (fun p => decide (p.id ∉ ids1)) := by
  induction ids1 with
  | nil =>
      intro db acc m ids2 hnd hpres hmiss
      have hfind : db.findProduct m = none := by
        unfold DB.findProduct
        rw [List.find?_eq_none]
        intro p hp
        simp [hmiss p hp]
      refine ⟨?_, ?_⟩
      · simp [ProductService.batch_delete_loop, hfind]
      · simp [ProductService.batch_delete_loop, hfind]
  | cons i t ih =>
      intro db acc m ids2 hnd hpres hmiss
      obtain ⟨p0, hp0, hp0id⟩ := hpres i (by simp)
      obtain ⟨q, hq⟩ : ∃ q, db.findProduct i = some q := by
        apply Option.isSome_iff_exists.mp
        rw [DB.findProduct, List.find?_isSome]
        exact ⟨p0, hp0, by simp [hp0id]⟩
      have hstep : ProductService.batch_delete_loop db acc ((i :: t) ++ m :: ids2) =
          ProductService.batch_delete_loop (ProductRepository.deleteRow db i)
            (acc ++ [q]) (t ++ m :: ids2) := by
        simp [ProductService.batch_delete_loop, hq]
      have hnotmem : i ∉ t := (List.nodup_cons.mp hnd).1
      have hpres2 : ∀ j ∈ t,
          ∃ p ∈ (ProductRepository.deleteRow db i).products, p.id = j := by
        intro j hj
        obtain ⟨p, hp, hpid⟩ := hpres j (by simp [hj])
        refine ⟨p, ?_, hpid⟩
        have hji : j ≠ i := fun hji => hnotmem (hji ▸ hj)
        have : (ProductRepository.deleteRow db i).products =
            db.products.filter (fun p => decide (p.id ≠ i)) := rfl
        rw [this, List.mem_filter]
        exact ⟨hp, by simp [hpid, hji]⟩
      have hmiss2 : ∀ p ∈ (ProductRepository.deleteRow db i).products, p.id ≠ m := by
        intro p hp
        have : (ProductRepository.deleteRow db i).products =
            db.products.filter (fun p => decide (p.id ≠ i)) := rfl
        rw [this, List.mem_filter] at hp
        exact hmiss p hp.1
      obtain ⟨he, hprod⟩ := ih (ProductRepository.deleteRow db i) (acc ++ [q]) m ids2
        (List.nodup_cons.mp hnd).2 hpres2 hmiss2
      rw [hstep]
      refine ⟨he, ?_⟩
      rw [hprod]
      have hdel : (ProductRepository.deleteRow db i).products =
          db.products.filter (fun p => decide (p.id ≠ i)) := rfl
      rw [hdel, List.filter_filter]
      apply List.filter_congr
      intro p hp
      by_cases h1 : p.id = i <;> by_cases h2 : p.id ∈ t <;> simp [h1, h2]

/-- C2 (amended): a strict batch delete containing a missing id does report
it as an error — the repository's `NotFoundException` for the first missing
id — but the batch is not atomic: every id before the first missing one has
already been deleted and committed when the error propagates, so the store
is left with exactly those products removed. -/
theorem c2_strict_batch_delete_partial_effect (db : DB) (ids1 : List Nat)
    (m : Nat) (ids2 : List Nat) (hnd : ids1.Nodup)
    (hpres : ∀ i ∈ ids1, ∃ p ∈ db.products, p.id = i)
    (hmiss : ∀ p ∈ db.products, p.id ≠ m) :
    (ProductService.batch_delete_products db (ids1 ++ m :: ids2)).2 =
      .error (.notFoundExc ("Product with id " ++ toString m ++ " not found")) ∧
    (ProductService.batch_delete_products db (ids1 ++ m :: ids2)).1.products =
      db.products.filter (fun p => decide (p.id ∉ ids1)) :=
  batch_delete_loop_prefix ids1 db [] m ids2 hnd hpres hmiss

/-- Counterexample for C2: deleting `[1, 999]` from the two-product store
(ids 1 and 2) reports an error for 999 but does not leave the store
unchanged — product 1, named in the list, is deleted and committed. -/
theorem c2_counterexample :
    (ProductService.batch_delete_products sampleDB [1, 999]).1.products =
      [sampleProduct2] ∧
    decide ((ProductService.batch_delete_products sampleDB [1, 999]).1.products =
      sampleDB.products) = false ∧
    (ProductService.batch_delete_products sampleDB [1, 999]).2 =
      .error (.notFoundExc ("Product with id " ++ toString 999 ++ " not found")) := by
  refine ⟨by decide, by decide, by rfl⟩

/-- Witness for C2: the amended statement at the concrete store — deleting
`[1, 999]` removes product 1 and raises `NotFoundException` for 999. -/
theorem c2_witness :
    (ProductService.batch_delete_products sampleDB ([1] ++ 999 :: [])).2 =
      .error (.notFoundExc ("Product with id " ++ toString 999 ++ " not found")) ∧
    (ProductService.batch_delete_products sampleDB ([1] ++ 999 :: [])).1.products =
      sampleDB.products.filter (fun p => decide (p.id ∉ [1])) :=
  c2_strict_batch_delete_partial_effect sampleDB [1] 999 []
    (by decide) (by decide) (by decide)

/-- C3: the `DELETE /products/batch` handler on `[1, 2, 999]` over the
two-product store. The spec's lenient outcome `{deleted: [1, 2]}` never
happens: the miss surfaces as the repository's `NotFoundException`, which
the handler's `except HTTPException` clause does not catch, so after
deleting products 1 and 2 the request fails with an unhandled exception
(and the intended fallback would itself crash, because
`batch_delete_products_silently` is not a method of `ProductService`). -/
theorem c3_lenient_batch_delete_broken :
    (ProductAPI.batch_delete_endpoint sampleDB [1, 2, 999]).2 =
      .unhandled ("Product with id " ++ toString 999 ++ " not found") ∧
    (ProductAPI.batch_delete_endpoint sampleDB [1, 2, 999]).1.products = [] := by
  refine ⟨by rfl, by decide⟩

end Catalog
